import Mathlib

/-!
Shallow embedding of nova/volume/driver.py: the block-storage export
drivers (VolumeDriver base, AOEDriver, ISCSIDriver) and the Python
string operations they rely on.  External command execution is modelled
by explicit `Cmd` values plus an exit-status oracle; the datastore
(Allocation Registry) calls that live outside this repository are
modelled from the spec as association lists.
-/

namespace Nova

/-! ## Python string primitives (faithful to CPython semantics) -/

/-- Characters Python's `str.split()` (no argument) treats as whitespace. -/
def isPySpace (c : Char) : Bool :=
  c = ' ' || c = '\t' || c = '\n' || c = '\r' || c = '\x0b' || c = '\x0c'

/-- Split a character list at every character satisfying `p`, keeping
empty pieces — the behaviour of Python `s.split(sep)` for a one-character
separator `sep` (where `p` is equality with that character). -/
def splitAtPred (p : Char → Bool) : List Char → List (List Char)
  | [] => [[]]
  | c :: cs =>
    if p c then [] :: splitAtPred p cs
    else
      match splitAtPred p cs with
      | [] => [[c]]
      | w :: ws => (c :: w) :: ws

/-- Python `s.split(c)` for a single-character separator: splits at every
occurrence and keeps empty fields. -/
def pySplitChar (c : Char) (s : String) : List String :=
  (splitAtPred (fun d => d == c) s.data).map (fun l => String.mk l)

/-- Python `s.split()` with no argument: split on runs of whitespace,
discarding empty fields. -/
def pySplitWs (s : String) : List String :=
  ((splitAtPred isPySpace s.data).filter (fun l => l ≠ [])).map (fun l => String.mk l)

/-- Python `s.partition(c)` for a single-character separator, projected to
the pair (head, tail) actually consumed by the code: the text before the
first occurrence and the text after it ("" when `c` is absent). -/
def partitionAtChar (c : Char) : List Char → List Char × List Char
  | [] => ([], [])
  | d :: ds =>
    if d == c then ([], ds)
    else
      let r := partitionAtChar c ds
      (d :: r.1, r.2)

/-- Python `s.splitlines()` restricted to `\n` separators: like splitting
on `\n` but without a trailing empty line, and `[]` on the empty string. -/
def pySplitlines (s : String) : List String :=
  if s.data = [] then []
  else
    let parts := splitAtPred (fun c => c == '\n') s.data
    let parts := if parts.getLast? = some [] then parts.dropLast else parts
    parts.map (fun l => String.mk l)

/-- Python `needle in hay` substring containment. -/
def strContains (hay needle : String) : Bool :=
  hay.data.tails.any (fun t => needle.data.isPrefixOf t)

/-! ## External commands

Each call into `utils.execute` is modelled as a `Cmd`: the argv list plus
the `check_exit_code` keyword (default `True` in the source).  A run of a
command sequence is judged against an exit-status oracle `ok : Cmd → Bool`;
`execute` raises `ProcessExecutionError` exactly on a command whose exit
status is bad while exit-code checking is enabled, and a raise aborts the
rest of the sequence. -/

structure Cmd where
  argv : List String
  checkExitCode : Bool := true
deriving Repr, DecidableEq

/-- Run commands in order under exit-status oracle `ok`; returns the first
command that raises `ProcessExecutionError` (checked and failing), or
`none` when the whole sequence completes. -/
def runCmds (ok : Cmd → Bool) : List Cmd → Option Cmd
  | [] => none
  | c :: cs => if c.checkExitCode && !(ok c) then some c else runCmds ok cs

/-! ## Flag defaults (flags.DEFINE_* at the top of driver.py) -/

def volume_group : String := "nova-volumes"
def aoe_eth_dev : String := "eth0"
def num_shell_tries : Nat := 3
def num_shelves : Nat := 100
def blades_per_shelf : Nat := 16
def iscsi_num_targets : Nat := 100
def iscsi_target_pre : String := "iqn.2010-10.org.openstack:"

/-! ## VolumeDriver base class -/

/-- `VolumeDriver._try_execute`: run `self._execute` in a loop; on
`ProcessExecutionError` increment `tries`, re-raise once
`tries >= FLAGS.num_shell_tries`, otherwise `time.sleep(tries ** 2)` and
retry.  The while-loop is written as recursion on the number of failures
still allowed before the re-raise, which is `maxTries - 1` at entry
(`tries` starts at 0 and attempt `k` re-raises on failure iff
`k >= maxTries`).  `ex a` tells whether the `a`-th attempt (1-based) of
the underlying execute succeeds.  Result: (number of attempts made, sleep
durations performed in order, whether the call returned `True` rather
than re-raising the last error). -/
def tryExecAux (ex : Nat → Bool) (attempt : Nat) : Nat → Nat × List Nat × Bool
  | 0 => (1, ([], ex attempt))
  | n + 1 =>
    if ex attempt then (1, ([], true))
    else
      let r := tryExecAux ex (attempt + 1) n
      (r.1 + 1, ((attempt * attempt) :: r.2.1, r.2.2))

/-- `VolumeDriver._try_execute` with retry limit `maxTries`
(`FLAGS.num_shell_tries`, default 3). -/
def VolumeDriver.try_execute (maxTries : Nat) (ex : Nat → Bool) :
    Nat × List Nat × Bool :=
  tryExecAux ex 1 (maxTries - 1)

/-- `VolumeDriver.create_volume`: the `-L` size argument handed to
`lvcreate` — `'100M'` when `int(volume['size']) == 0`, else
`'%sG' % volume['size']`. -/
def VolumeDriver.create_volume_sizestr (size : Nat) : String :=
  if size = 0 then "100M" else toString size ++ "G"

/-- The `lvcreate` command issued by `VolumeDriver.create_volume`
(through `_try_execute`). -/
def VolumeDriver.create_volume_cmd (vname : String) (size : Nat) : Cmd :=
  ⟨["sudo", "lvcreate", "-L", VolumeDriver.create_volume_sizestr size,
    "-n", vname, volume_group], true⟩

/-- Megabytes of backing storage `lvcreate -L` allocates for the size
string of `create_volume`: 100 for `'100M'`, `size * 1024` for
`'%sG' % size`. -/
def allocatedMB (size : Nat) : Nat :=
  if size = 0 then 100 else size * 1024

/-- Dashes escaped for device-mapper names: Python
`s.replace('-', '--')`. -/
def escapeDashes : List Char → List Char
  | [] => []
  | c :: cs =>
    if c = '-' then '-' :: '-' :: escapeDashes cs else c :: escapeDashes cs

/-- `VolumeDriver.local_path`: `/dev/mapper/<group>-<name>` with `-`
doubled in both components. -/
def VolumeDriver.local_path (vname : String) : String :=
  "/dev/mapper/" ++ String.mk (escapeDashes volume_group.data) ++ "-" ++
    String.mk (escapeDashes vname.data)

/-- `VolumeDriver.delete_volume` after the `lvdisplay` presence probe:
when the probe raised (`present = false`) the method returns at once and
issues nothing; otherwise it issues `dd` zero-fill with
`count=%d % (volume['size'] * 1024)` and `bs=1M`, then `lvremove`. -/
def VolumeDriver.delete_volume_cmds (present : Bool) (vname : String)
    (size : Nat) : List Cmd :=
  if present then
    [⟨["sudo", "dd", "if=/dev/zero", "of=" ++ VolumeDriver.local_path vname,
       "count=" ++ toString (size * 1024), "bs=1M"], true⟩,
     ⟨["sudo", "lvremove", "-f", volume_group ++ "/" ++ vname], true⟩]
  else []

/-- Megabytes actually zeroed by the `dd` in `delete_volume`:
`count` blocks of `bs=1M`, i.e. `size * 1024`. -/
def ddZeroedMB (size : Nat) : Nat := size * 1024

/-! ## Volume records and datastore collaborators

The datastore (`self.db`, the spec's Allocation Registry) lives outside
this repository; its lookup/allocation operations are modelled from the
spec as association lists keyed by volume id. -/

structure Volume where
  id : Nat
  name : String
  host : String
  size : Nat
  /-- opaque provider location; `""` models Python falsy (None or empty). -/
  provider_location : String
  /-- opaque provider auth triple string; `""` models Python falsy. -/
  provider_auth : String
deriving Repr, DecidableEq

inductive DriverError
  /-- `exception.NotFound` escaping a datastore lookup. -/
  | notFound
  /-- `exception.ProcessExecutionError` raised by `check_for_export`
  when the export cannot be confirmed. -/
  | verificationFailed
deriving Repr, DecidableEq

/-- Modelled from the spec: `lookupSlot` for the AoE registry
(`db.volume_get_shelf_and_blade`, not under src/) — yields the recorded
(shelf, blade) pair, or `none` for a `NotFound` raise. -/
def volume_get_shelf_and_blade (db : List (Nat × Nat × Nat)) (vid : Nat) :
    Option (Nat × Nat) :=
  db.lookup vid

/-- Modelled from the spec: `lookupSlot` for the iSCSI registry
(`db.volume_get_iscsi_target_num`, not under src/) — yields the recorded
target number, or `none` for a `NotFound` raise. -/
def volume_get_iscsi_target_num (db : List (Nat × Nat)) (vid : Nat) :
    Option Nat :=
  db.lookup vid

/-- Modelled from the spec: `allocateSlot` for the iSCSI registry
(`db.volume_allocate_iscsi_target`, not under src/) — atomically reserves
one free target number from the per-host pool `1..n` for the volume, or
fails (`PoolExhausted`) when none is free. -/
def volume_allocate_iscsi_target (n : Nat) (db : List (Nat × Nat))
    (vid : Nat) : Option (Nat × List (Nat × Nat)) :=
  match ((List.range n).map (fun i => i + 1)).find?
      (fun t => !(db.any (fun p => p.2 == t))) with
  | none => none
  | some t => some (t, (vid, t) :: db)

/-! ## AOEDriver -/

/-- Commands issued by `AOEDriver.create_export` once the registry has
handed out (shelf, blade): `vblade-persist setup` through `_try_execute`
(checked, retried), then — after `time.sleep(2)` — the global
`vblade-persist auto all` and `vblade-persist start all` passes, both
with `check_exit_code=False` so their errors are ignored. -/
def AOEDriver.create_export_cmds (shelf blade : Nat) (vname : String) :
    List Cmd :=
  [⟨["sudo", "vblade-persist", "setup", toString shelf, toString blade,
     aoe_eth_dev, "/dev/" ++ volume_group ++ "/" ++ vname], true⟩,
   ⟨["sudo", "vblade-persist", "auto", "all"], false⟩,
   ⟨["sudo", "vblade-persist", "start", "all"], false⟩]

/-- `AOEDriver.remove_export`: fetch the (shelf, blade) pair — a
`NotFound` raise from the datastore is NOT caught here and escapes to the
caller — then `vblade-persist stop` and `vblade-persist destroy`, both
through `_try_execute` (checked; a persistent tool failure re-raises). -/
def AOEDriver.remove_export (db : List (Nat × Nat × Nat)) (vid : Nat) :
    Except DriverError (List Cmd) :=
  match volume_get_shelf_and_blade db vid with
  | none => .error .notFound
  | some (shelf, blade) =>
    .ok [⟨["sudo", "vblade-persist", "stop", toString shelf,
           toString blade], true⟩,
         ⟨["sudo", "vblade-persist", "destroy", toString shelf,
           toString blade], true⟩]

/-- `AOEDriver.discover_volume`: fetch (shelf, blade), run
`aoe-discover`, read `aoe-stat` output (`check_exit_code=False`); when
`out.find('e<shelf>.<blade>') >= 0` return `/dev/etherd/e<shelf>.<blade>`,
else fall off the end of the function — a successful return of `None`,
modelled as `.ok none`. -/
def AOEDriver.discover_volume (db : List (Nat × Nat × Nat)) (vid : Nat)
    (aoeStatOut : String) : Except DriverError (Option String) :=
  match volume_get_shelf_and_blade db vid with
  | none => .error .notFound
  | some (shelf, blade) =>
    let device_path := "e" ++ toString shelf ++ "." ++ toString blade
    if strContains aoeStatOut device_path then
      .ok (some ("/dev/etherd/" ++ device_path))
    else
      .ok none

/-- The line scan of `AOEDriver.check_for_export`: some line of
`out.split('\n')`, split on single spaces, has exactly 6 fields with
`param[0] == str(shelf_id)`, `param[1] == str(blade_id)` and
`param[-1] == "run"`. -/
def AOEDriver.export_line_ok (shelf blade : Nat) (out : String) : Bool :=
  (pySplitChar '\n' out).any (fun line =>
    let param := pySplitChar ' ' line
    param.length = 6 && param.headD "" == toString shelf &&
      param[1]? == some (toString blade) && param.getLastD "" == "run")

/-- `AOEDriver.check_for_export`: fetch (shelf, blade) (a `NotFound`
raise escapes), run `vblade-persist ls --no-header`, and raise
`exception.ProcessExecutionError` unless the output contains a matching
running line. -/
def AOEDriver.check_for_export (db : List (Nat × Nat × Nat)) (vid : Nat)
    (out : String) : Except DriverError Unit :=
  match volume_get_shelf_and_blade db vid with
  | none => .error .notFound
  | some (shelf, blade) =>
    if AOEDriver.export_line_ok shelf blade out then .ok ()
    else .error .verificationFailed

/-! ## ISCSIDriver -/

/-- `'%s%s' % (FLAGS.iscsi_target_prefix, volume['name'])`. -/
def iscsi_name_of (vname : String) : String := iscsi_target_pre ++ vname

/-- `'/dev/%s/%s' % (FLAGS.volume_group, volume['name'])`. -/
def volume_path_of (vname : String) : String :=
  "/dev/" ++ volume_group ++ "/" ++ vname

/-- The two `ietadm --op new` commands of `ISCSIDriver.ensure_export`,
both issued through `_sync_exec` with `check_exit_code=False`. -/
def ISCSIDriver.ensure_export_cmds (tid : Nat) (vname : String) : List Cmd :=
  [⟨["sudo", "ietadm", "--op", "new", "--tid=" ++ toString tid,
     "--params", "Name=" ++ iscsi_name_of vname], false⟩,
   ⟨["sudo", "ietadm", "--op", "new", "--tid=" ++ toString tid,
     "--lun=0", "--params",
     "Path=" ++ volume_path_of vname ++ ",Type=fileio"], false⟩]

/-- `ISCSIDriver.ensure_export`: look up the recorded target number; on
`NotFound` log and return having issued nothing (and having touched no
registry state); otherwise issue the two unchecked `ietadm` commands.
The returned registry is always the input one: the method performs no
allocation and no release. -/
def ISCSIDriver.ensure_export (db : List (Nat × Nat)) (vid : Nat)
    (vname : String) : List (Nat × Nat) × List Cmd :=
  match volume_get_iscsi_target_num db vid with
  | none => (db, [])
  | some tid => (db, ISCSIDriver.ensure_export_cmds tid vname)

/-- The two `ietadm --op new` commands of `ISCSIDriver.create_export`,
issued through plain `self._execute` with exit-code checking left at its
default (`True`). -/
def ISCSIDriver.create_export_cmds (tid : Nat) (vname : String) : List Cmd :=
  [⟨["sudo", "ietadm", "--op", "new", "--tid=" ++ toString tid,
     "--params", "Name=" ++ iscsi_name_of vname], true⟩,
   ⟨["sudo", "ietadm", "--op", "new", "--tid=" ++ toString tid,
     "--lun=0", "--params",
     "Path=" ++ volume_path_of vname ++ ",Type=fileio"], true⟩]

inductive CreateErr
  /-- `exception.Db` pool exhaustion from `volume_allocate_iscsi_target`. -/
  | poolExhausted
  /-- a `ProcessExecutionError` from `_execute` escaping to the caller,
  carrying the command that failed. -/
  | exec (c : Cmd)
deriving Repr, DecidableEq

/-- `ISCSIDriver.create_export`: ensure the target pool, allocate a
target number for the volume, then run the two checked `ietadm` commands;
any `ProcessExecutionError` they raise propagates to the caller. -/
def ISCSIDriver.create_export (n : Nat) (db : List (Nat × Nat))
    (v : Volume) (ok : Cmd → Bool) :
    Except CreateErr (List (Nat × Nat) × Nat × List Cmd) :=
  match volume_allocate_iscsi_target n db v.id with
  | none => .error .poolExhausted
  | some (tid, db') =>
    match runCmds ok (ISCSIDriver.create_export_cmds tid v.name) with
    | some c => .error (.exec c)
    | none => .ok (db', tid, ISCSIDriver.create_export_cmds tid v.name)

/-- Live `ietadm` target state on the host: the set of target ids for
which `ietadm --op show --tid=<tid>` exits 0. -/
structure IetState where
  exported : List Nat
deriving Repr, DecidableEq

inductive RemoveOutcome
  /-- `NotFound` from the registry lookup: "Skipping remove_export. No
  iscsi_target provisioned". -/
  | skippedNoTarget
  /-- `ietadm --op show` raised: "Skipping remove_export. No iscsi_target
  is presently exported". -/
  | skippedNotExported
  /-- the two `ietadm --op delete` commands ran. -/
  | removed
deriving Repr, DecidableEq

/-- `ISCSIDriver.remove_export`: look up the target number (`NotFound`
→ return), probe it with `ietadm --op show` (any raise → return), then
delete the lun and the target.  The registry is returned unchanged in
every branch: the method never calls a release operation, so the
volume's slot stays allocated. -/
def ISCSIDriver.remove_export (db : List (Nat × Nat)) (tool : IetState)
    (vid : Nat) : List (Nat × Nat) × IetState × RemoveOutcome :=
  match volume_get_iscsi_target_num db vid with
  | none => (db, tool, .skippedNoTarget)
  | some tid =>
    if tool.exported.contains tid then
      (db, ⟨tool.exported.filter (fun t => t != tid)⟩, .removed)
    else
      (db, tool, .skippedNotExported)

inductive PropErr
  /-- `exception.Error("Could not find iSCSI export for volume ...")`
  when neither provider_location nor discovery yields a target. -/
  | exportNotFound
  /-- the `ValueError` from unpacking `auth.split()` into exactly three
  names — an unstructured tuple-unpacking failure. -/
  | authUnpackError
deriving Repr, DecidableEq

structure IscsiProperties where
  target_discovered : Bool
  target_iqn : String
  target_portal : String
  /-- (auth_method, auth_username, auth_password) when provider_auth was
  truthy and unpacked. -/
  auth : Option (String × String × String)
deriving Repr, DecidableEq

/-- `ISCSIDriver._do_iscsi_discovery`: run
`iscsiadm -m discovery -t sendtargets -p <host>` and return the first
output line containing both `FLAGS.iscsi_ip_prefix` and the volume name
as substrings, or `None`.  `ipPre` is the configured ip prefix and
`discoveryOut` the tool's stdout. -/
def ISCSIDriver.do_iscsi_discovery (ipPre : String) (discoveryOut : String)
    (vname : String) : Option String :=
  (pySplitlines discoveryOut).find?
    (fun target => strContains target ipPre && strContains target vname)

/-- The tail of `ISCSIDriver._get_iscsi_properties` once `location` and
`target_discovered` are fixed:
`(iscsi_target, _sep, iscsi_name) = location.partition(" ")`,
`iscsi_portal = iscsi_target.split(",")[0]`, then the auth unpacking
`(auth_method, auth_username, auth_secret) = auth.split()` guarded by
`if auth:`. -/
def parseLocationAuth (location : String) (discovered : Bool)
    (auth : String) : Except PropErr IscsiProperties :=
  let pr := partitionAtChar ' ' location.data
  let iscsi_target : String := String.mk pr.1
  let iscsi_name : String := String.mk pr.2
  let iscsi_portal : String := (pySplitChar ',' iscsi_target).headD ""
  if auth ≠ "" then
    match pySplitWs auth with
    | [m, u, p] => .ok ⟨discovered, iscsi_name, iscsi_portal, some (m, u, p)⟩
    | _ => .error .authUnpackError
  else
    .ok ⟨discovered, iscsi_name, iscsi_portal, none⟩

/-- `ISCSIDriver._get_iscsi_properties`: prefer the stored
`provider_location` (then `target_discovered = False` and no discovery
command runs); otherwise fall back to `_do_iscsi_discovery` and raise
when it yields nothing truthy.  The `Bool` paired with the result records
whether the discovery command was executed. -/
def ISCSIDriver.get_iscsi_properties (v : Volume) (ipPre : String)
    (discoveryOut : String) : Except PropErr (IscsiProperties × Bool) :=
  if v.provider_location ≠ "" then
    (parseLocationAuth v.provider_location false v.provider_auth).map
      (fun p => (p, false))
  else
    match ISCSIDriver.do_iscsi_discovery ipPre discoveryOut v.name with
    | none => .error .exportNotFound
    | some location =>
      if location = "" then .error .exportNotFound
      else
        (parseLocationAuth location true v.provider_auth).map
          (fun p => (p, true))

inductive DiscoverErr
  /-- an error escaping `_get_iscsi_properties`. -/
  | props (e : PropErr)
  /-- a raw `ProcessExecutionError` from a checked `iscsiadm` command run
  before the login try-block (the `--op new` node registration or an auth
  update), escaping `discover_volume` uncaught. -/
  | exec (c : Cmd)
  /-- `exception.Error("iSCSI device ... not found")` raised when the
  retried `--login` / `node.startup` update block hits a
  `ProcessExecutionError`. -/
  | deviceNotFound
deriving Repr, DecidableEq

/-- `ISCSIDriver._run_iscsiadm`: the `iscsiadm -m node -T <iqn>
-p <portal> <iscsi_command>` invocation through `self._execute`, with
exit-code checking at its default (`True`).  The `attempts=num_tries`
keyword retries the same command; against a per-command exit-status
oracle the retries collapse, so a failing command still ends in the same
`ProcessExecutionError`. -/
def ISCSIDriver.run_iscsiadm_cmd (props : IscsiProperties)
    (iscsi_command : List String) : Cmd :=
  ⟨["sudo", "iscsiadm", "-m", "node", "-T", props.target_iqn,
    "-p", props.target_portal] ++ iscsi_command, true⟩

/-- `ISCSIDriver._iscsiadm_update`: `_run_iscsiadm` with
`('--op', 'update', '-n', key, '-v', value)`. -/
def ISCSIDriver.iscsiadm_update_cmd (props : IscsiProperties)
    (key value : String) : Cmd :=
  ISCSIDriver.run_iscsiadm_cmd props ["--op", "update", "-n", key,
    "-v", value]

/-- The commands run by `ISCSIDriver.get_iscsi_properties_for_volume`
after `_get_iscsi_properties`: when `target_discovered` is false (the
stored-provider_location case) it registers the node with a checked
`iscsiadm ('--op', 'new')`. -/
def ISCSIDriver.op_new_cmds (props : IscsiProperties) : List Cmd :=
  if props.target_discovered then []
  else [ISCSIDriver.run_iscsiadm_cmd props ["--op", "new"]]

/-- `ISCSIDriver.get_iscsi_properties_for_volume`: compute the iscsi
properties, then run the checked `--op new` registration for
non-discovered targets; its `ProcessExecutionError` escapes raw. -/
def ISCSIDriver.get_iscsi_properties_for_volume (v : Volume)
    (ipPre discoveryOut : String) (ok : Cmd → Bool) :
    Except DiscoverErr IscsiProperties :=
  match ISCSIDriver.get_iscsi_properties v ipPre discoveryOut with
  | .error e => .error (.props e)
  | .ok (props, _) =>
    match runCmds ok (ISCSIDriver.op_new_cmds props) with
    | some c => .error (.exec c)
    | none => .ok props

/-- `ISCSIDriver.set_iscsi_auth`: when `auth_method` is present (it is
recorded exactly when provider_auth unpacked, and `split()` never
produces empty tokens, so presence coincides with Python's truthiness
test) issue the three checked `_iscsiadm_update` commands for
authmethod, username and password; their `ProcessExecutionError`
escapes raw. -/
def ISCSIDriver.set_iscsi_auth_cmds (props : IscsiProperties) : List Cmd :=
  match props.auth with
  | some (m, u, p) =>
    [ISCSIDriver.iscsiadm_update_cmd props "node.session.auth.authmethod" m,
     ISCSIDriver.iscsiadm_update_cmd props "node.session.auth.username" u,
     ISCSIDriver.iscsiadm_update_cmd props "node.session.auth.password" p]
  | none => []

/-- The try-block of `ISCSIDriver.discover_volume`: `--login` (retried
`num_shell_tries` times inside `_execute`) then the `node.startup`
update to `automatic`; a `ProcessExecutionError` from either is caught
and converted to the device-not-found `exception.Error`. -/
def ISCSIDriver.login_cmds (props : IscsiProperties) : List Cmd :=
  [ISCSIDriver.run_iscsiadm_cmd props ["--login"],
   ISCSIDriver.iscsiadm_update_cmd props "node.startup" "automatic"]

/-- `ISCSIDriver.discover_volume`: `get_iscsi_properties_for_volume`
(whose property errors and checked `--op new` failure propagate), then
`set_iscsi_auth` (checked, failures propagate raw), then the login
try-block whose `ProcessExecutionError` becomes `deviceNotFound`; on
success the `/dev/disk/by-path` mount device path is returned. -/
def ISCSIDriver.discover_volume (v : Volume) (ipPre discoveryOut : String)
    (ok : Cmd → Bool) : Except DiscoverErr String :=
  match ISCSIDriver.get_iscsi_properties_for_volume v ipPre discoveryOut
      ok with
  | .error e => .error e
  | .ok props =>
    match runCmds ok (ISCSIDriver.set_iscsi_auth_cmds props) with
    | some c => .error (.exec c)
    | none =>
      match runCmds ok (ISCSIDriver.login_cmds props) with
      | some _ => .error .deviceNotFound
      | none =>
        .ok ("/dev/disk/by-path/ip-" ++ props.target_portal ++ "-iscsi-" ++
          props.target_iqn ++ "-lun-0")

/-! ## Helper lemmas -/

theorem contains_filter_ne (l : List Nat) (t : Nat) :
    (l.filter (fun x => x != t)).contains t = false := by
  simp [List.contains]

theorem export_line_ok_iff (shelf blade : Nat) (out : String) :
    AOEDriver.export_line_ok shelf blade out = true ↔
    ∃ line ∈ pySplitChar '\n' out,
      (pySplitChar ' ' line).length = 6 ∧
      (pySplitChar ' ' line).headD "" = toString shelf ∧
      (pySplitChar ' ' line)[1]? = some (toString blade) ∧
      (pySplitChar ' ' line).getLastD "" = "run" := by
  simp [AOEDriver.export_line_ok, List.any_eq_true, Bool.and_eq_true,
    beq_iff_eq, decide_eq_true_eq, and_assoc]

/-- Sample volume for the `_get_iscsi_properties` scenario of the spec:
stored provider_location and no provider_auth. -/
def sampleVolume : Volume :=
  ⟨1, "vol-1", "host1", 1,
   "10.0.0.5:3260,1 iqn.2010-10.org.openstack:vol-1", ""⟩

theorem runCmds_none_iff (ok : Cmd → Bool) (l : List Cmd) :
    runCmds ok l = none ↔
      ∀ c ∈ l, c.checkExitCode = true → ok c = true := by
  induction l with
  | nil => simp [runCmds]
  | cons c cs ih =>
    by_cases hchk : c.checkExitCode = true
    · by_cases hok : ok c = true
      · simp [runCmds, hchk, hok, ih]
      · simp [runCmds, hchk, hok, ih]
    · have hf : c.checkExitCode = false := by simpa using hchk
      simp [runCmds, hf, ih]

/-! ## Claim theorems -/

/-- C2: `ISCSIDriver.ensure_export` on a volume with no recorded target
number is a no-op: it issues no export-tool command and leaves the
Allocation Registry untouched (no fresh allocation). -/
theorem ensure_export_noop_when_unprovisioned (db : List (Nat × Nat))
    (vid : Nat) (vname : String)
    (h : volume_get_iscsi_target_num db vid = none) :
    ISCSIDriver.ensure_export db vid vname = (db, []) := by
  simp [ISCSIDriver.ensure_export, h]

/-- Witness for C2 at a concrete unprovisioned volume. -/
theorem ensure_export_noop_when_unprovisioned_witness :
    volume_get_iscsi_target_num [] 7 = none ∧
    ISCSIDriver.ensure_export [] 7 "volume-7" = ([], []) :=
  ⟨rfl, ensure_export_noop_when_unprovisioned [] 7 "volume-7" rfl⟩

/-- C3 counterexample: on the spec's scenario volume the code computes
`target_portal = iscsi_target.split(",")[0] = "10.0.0.5:3260"`, not the
claimed `"10.0.0.5:3260,1"` (that string is the portion before the
space, which the code splits further at the comma). -/
theorem get_iscsi_properties_portal_cex :
    (ISCSIDriver.get_iscsi_properties sampleVolume "10.0.0." "").map
        (fun r => r.1.target_portal) = Except.ok "10.0.0.5:3260" ∧
    (("10.0.0.5:3260" : String) == "10.0.0.5:3260,1") = false := by
  exact ⟨rfl, by decide⟩

/-- C3 amended: on the scenario volume (`provider_location` stored, auth
absent) `_get_iscsi_properties` yields `target_portal = "10.0.0.5:3260"`,
`target_iqn = "iqn.2010-10.org.openstack:vol-1"`,
`target_discovered = false`, no auth fields, and the discovery command is
never executed (the `false` flag paired with the result). -/
theorem get_iscsi_properties_stored_location_ok :
    ISCSIDriver.get_iscsi_properties sampleVolume "10.0.0." "" =
      Except.ok
        (⟨false, "iqn.2010-10.org.openstack:vol-1", "10.0.0.5:3260", none⟩,
         false) := by
  rfl

/-- C4: `_try_execute` with the default retry limit of 3, against an
execute failing on the first two attempts and succeeding on the third,
returns success after exactly 3 attempts with sleeps of 1² and 2² time
units after the failed attempts; against an always-failing execute it
makes exactly 3 attempts (same sleeps) and then re-raises the last
`ProcessExecutionError`. -/
theorem try_execute_retry_policy (ex1 ex2 : Nat → Bool)
    (h1 : ex1 1 = false) (h2 : ex1 2 = false) (h3 : ex1 3 = true)
    (g : ∀ n, ex2 n = false) :
    VolumeDriver.try_execute num_shell_tries ex1 = (3, ([1, 4], true)) ∧
    VolumeDriver.try_execute num_shell_tries ex2 = (3, ([1, 4], false)) := by
  constructor
  · simp [VolumeDriver.try_execute, num_shell_tries, tryExecAux, h1, h2, h3]
  · simp [VolumeDriver.try_execute, num_shell_tries, tryExecAux, g]

/-- Witness for C4: fails-twice-then-succeeds and always-fails executes. -/
theorem try_execute_retry_policy_witness :
    (fun a => decide (3 ≤ a)) 1 = false ∧
    (fun a => decide (3 ≤ a)) 2 = false ∧
    (fun a => decide (3 ≤ a)) 3 = true ∧
    (∀ n, (fun _ : Nat => false) n = false) ∧
    VolumeDriver.try_execute num_shell_tries (fun a => decide (3 ≤ a)) =
      (3, ([1, 4], true)) ∧
    VolumeDriver.try_execute num_shell_tries (fun _ => false) =
      (3, ([1, 4], false)) := by
  refine ⟨by decide, by decide, by decide, fun n => rfl, ?_⟩
  exact try_execute_retry_policy (fun a => decide (3 ≤ a)) (fun _ => false)
    (by decide) (by decide) (by decide) (fun n => rfl)

/-- C8 (code bug): for a volume requested with size 0, `create_volume`
allocates a 100M logical volume (`-L 100M`), but `delete_volume`'s
zero-fill runs `dd` with `count=%d % (volume['size'] * 1024) = 0` blocks,
so 0 MB of the 100 MB extent are zeroed — the zero-fill is effectively
skipped for size-0 volumes, contradicting the code's own "zero out old
volumes to prevent data leaking between users" comment. -/
theorem delete_volume_zero_fill_gap :
    VolumeDriver.create_volume_sizestr 0 = "100M" ∧
    allocatedMB 0 = 100 ∧
    VolumeDriver.delete_volume_cmds true "vol-1" 0 =
      [⟨["sudo", "dd", "if=/dev/zero", "of=/dev/mapper/nova--volumes-vol--1",
         "count=0", "bs=1M"], true⟩,
       ⟨["sudo", "lvremove", "-f", "nova-volumes/vol-1"], true⟩] ∧
    ddZeroedMB 0 = 0 ∧
    ddZeroedMB 0 < allocatedMB 0 := by
  refine ⟨rfl, rfl, rfl, rfl, by decide⟩

/-- C1 counterexample: for a volume whose slot is recorded and exported
(registry `[(1, 5)]`, live target 5), `ISCSIDriver.remove_export` tears
the export down but the registry still maps the volume to target 5
afterwards — `lookupSlot` succeeds instead of failing with `NotFound`
(the driver never releases the slot); and `AOEDriver.remove_export` on a
volume with no recorded slot raises `NotFound` instead of being a
no-op. -/
theorem remove_export_slot_left_allocated_cex :
    (ISCSIDriver.remove_export [(1, 5)] ⟨[5]⟩ 1).2.2 =
      RemoveOutcome.removed ∧
    volume_get_iscsi_target_num
      (ISCSIDriver.remove_export [(1, 5)] ⟨[5]⟩ 1).1 1 = some 5 ∧
    AOEDriver.remove_export [] 1 = .error .notFound :=
  ⟨rfl, rfl, rfl⟩

/-- C1 amended: `ISCSIDriver.remove_export` looks up the slot; if absent
it is a no-op; if present and exported it tears the export down
(tolerating "already removed": a second call is again a no-op), but it
never releases the slot in the Allocation Registry, so a subsequent
`lookupSlot` still succeeds; and `AOEDriver.remove_export` lets the
missing-slot `NotFound` escape rather than treating it as a no-op. -/
theorem remove_export_amended_ok (db : List (Nat × Nat)) (tool : IetState)
    (vid tid : Nat) :
    (volume_get_iscsi_target_num db vid = none →
      ISCSIDriver.remove_export db tool vid = (db, tool, .skippedNoTarget)) ∧
    (volume_get_iscsi_target_num db vid = some tid →
      tool.exported.contains tid = true →
      (ISCSIDriver.remove_export db tool vid).1 = db ∧
      (ISCSIDriver.remove_export db tool vid).2.2 = .removed ∧
      volume_get_iscsi_target_num
        (ISCSIDriver.remove_export db tool vid).1 vid = some tid ∧
      ISCSIDriver.remove_export db
          (ISCSIDriver.remove_export db tool vid).2.1 vid =
        (db, (ISCSIDriver.remove_export db tool vid).2.1,
         .skippedNotExported)) ∧
    (volume_get_iscsi_target_num db vid = some tid →
      tool.exported.contains tid = false →
      ISCSIDriver.remove_export db tool vid =
        (db, tool, .skippedNotExported)) ∧
    (∀ adb : List (Nat × Nat × Nat),
      volume_get_shelf_and_blade adb vid = none →
      AOEDriver.remove_export adb vid = .error .notFound) := by
  refine ⟨?_, ?_, ?_, ?_⟩
  · intro h
    simp [ISCSIDriver.remove_export, h]
  · intro h hc
    have hm : tid ∈ tool.exported := by simpa [List.contains] using hc
    refine ⟨by simp [ISCSIDriver.remove_export, h, hm],
      by simp [ISCSIDriver.remove_export, h, hm],
      by simp [ISCSIDriver.remove_export, h, hm],
      ?_⟩
    simp [ISCSIDriver.remove_export, h, hm, List.mem_filter]
  · intro h hc
    have hm : tid ∉ tool.exported := by
      intro hmem
      simp [List.contains, hmem] at hc
    simp [ISCSIDriver.remove_export, h, hm]
  · intro adb h
    simp [AOEDriver.remove_export, h]

/-- Witness for C1 amended at registry `[(1, 5)]`, live target 5. -/
theorem remove_export_amended_ok_witness :
    volume_get_iscsi_target_num [(1, 5)] 1 = some 5 ∧
    (IetState.mk [5]).exported.contains 5 = true ∧
    ((ISCSIDriver.remove_export [(1, 5)] ⟨[5]⟩ 1).1 = [(1, 5)] ∧
     (ISCSIDriver.remove_export [(1, 5)] ⟨[5]⟩ 1).2.2 =
       RemoveOutcome.removed ∧
     volume_get_iscsi_target_num
       (ISCSIDriver.remove_export [(1, 5)] ⟨[5]⟩ 1).1 1 = some 5 ∧
     ISCSIDriver.remove_export [(1, 5)]
         (ISCSIDriver.remove_export [(1, 5)] ⟨[5]⟩ 1).2.1 1 =
       ([(1, 5)], (ISCSIDriver.remove_export [(1, 5)] ⟨[5]⟩ 1).2.1,
        RemoveOutcome.skippedNotExported)) :=
  ⟨rfl, rfl, (remove_export_amended_ok [(1, 5)] ⟨[5]⟩ 1 5).2.1 rfl rfl⟩

/-- C5: given a recorded (shelf, blade) pair, `AOEDriver.check_for_export`
succeeds exactly when some line of the `vblade-persist ls --no-header`
output, split on single spaces, has exactly the 6 tabular fields with
field 0 = shelf, field 1 = blade and last field `"run"`; any other output
raises the export-verification `ProcessExecutionError`.  Concretely, for
shelf=3 blade=7 the running line `"3 7 vg lv0 eth0 run"` (the spec's
`"3 7 ... run"` with its elided middle columns spelled out) succeeds and
the same line with status `"down"` fails. -/
theorem check_for_export_matching_line_ok (db : List (Nat × Nat × Nat))
    (vid shelf blade : Nat) (out : String)
    (h : volume_get_shelf_and_blade db vid = some (shelf, blade)) :
    (AOEDriver.check_for_export db vid out = .ok () ↔
      ∃ line ∈ pySplitChar '\n' out,
        (pySplitChar ' ' line).length = 6 ∧
        (pySplitChar ' ' line).headD "" = toString shelf ∧
        (pySplitChar ' ' line)[1]? = some (toString blade) ∧
        (pySplitChar ' ' line).getLastD "" = "run") ∧
    (AOEDriver.export_line_ok shelf blade out = false →
      AOEDriver.check_for_export db vid out = .error .verificationFailed) ∧
    AOEDriver.check_for_export [(9, 3, 7)] 9 "3 7 vg lv0 eth0 run" =
      .ok () ∧
    AOEDriver.check_for_export [(9, 3, 7)] 9 "3 7 vg lv0 eth0 down" =
      .error .verificationFailed := by
  refine ⟨?_, ?_, rfl, rfl⟩
  · rw [← export_line_ok_iff]
    constructor
    · intro hok
      by_cases hb : AOEDriver.export_line_ok shelf blade out = true
      · exact hb
      · rw [Bool.not_eq_true] at hb
        simp [AOEDriver.check_for_export, h, hb] at hok
    · intro hb
      simp [AOEDriver.check_for_export, h, hb]
  · intro hb
    simp [AOEDriver.check_for_export, h, hb]

/-- Witness for C5 at the concrete running-line scenario. -/
theorem check_for_export_matching_line_ok_witness :
    volume_get_shelf_and_blade [(9, 3, 7)] 9 = some (3, 7) ∧
    AOEDriver.check_for_export [(9, 3, 7)] 9 "3 7 vg lv0 eth0 run" =
      .ok () :=
  ⟨rfl,
   (check_for_export_matching_line_ok [(9, 3, 7)] 9 3 7
     "3 7 vg lv0 eth0 run" rfl).2.2.1⟩

/-- C6 counterexample: with shelf/blade (3, 7) recorded for volume 1 and
`aoe-stat` output that reports no matching target, `AOEDriver.discover_volume`
returns successfully with no device path (Python falls off the end and
returns `None`) instead of failing with a device-not-found error. -/
theorem aoe_discover_volume_none_cex :
    volume_get_shelf_and_blade [(1, 3, 7)] 1 = some (3, 7) ∧
    AOEDriver.discover_volume [(1, 3, 7)] 1 "" = .ok none :=
  ⟨rfl, rfl⟩

/-- C6 amended: `AOEDriver.discover_volume` returns the
`/dev/etherd/e<shelf>.<blade>` path when the `aoe-stat` output contains
the device string, but silently returns `None` (success without a path)
when it does not.  `ISCSIDriver.discover_volume` never returns success
without a path: a failure of the checked pre-login commands (the
`--op new` node registration run for every stored-location volume, or a
`set_iscsi_auth` update) escapes as a raw `ProcessExecutionError`; a
failure inside the login try-block becomes the device-not-found error;
and only when every command succeeds does it return the by-path device
path. -/
theorem discover_volume_amended_ok (db : List (Nat × Nat × Nat))
    (vid shelf blade : Nat) (out : String)
    (h : volume_get_shelf_and_blade db vid = some (shelf, blade)) :
    (strContains out ("e" ++ toString shelf ++ "." ++ toString blade) =
        true →
      AOEDriver.discover_volume db vid out =
        .ok (some ("/dev/etherd/" ++
          ("e" ++ toString shelf ++ "." ++ toString blade)))) ∧
    (strContains out ("e" ++ toString shelf ++ "." ++ toString blade) =
        false →
      AOEDriver.discover_volume db vid out = .ok none) ∧
    (∀ (v : Volume) (ipPre dout : String) (ok : Cmd → Bool)
        (props : IscsiProperties) (b : Bool) (c : Cmd),
      ISCSIDriver.get_iscsi_properties v ipPre dout = .ok (props, b) →
      runCmds ok (ISCSIDriver.op_new_cmds props) = some c →
      ISCSIDriver.discover_volume v ipPre dout ok = .error (.exec c)) ∧
    (∀ (v : Volume) (ipPre dout : String) (ok : Cmd → Bool)
        (props : IscsiProperties) (b : Bool) (c : Cmd),
      ISCSIDriver.get_iscsi_properties v ipPre dout = .ok (props, b) →
      runCmds ok (ISCSIDriver.op_new_cmds props) = none →
      runCmds ok (ISCSIDriver.set_iscsi_auth_cmds props) = some c →
      ISCSIDriver.discover_volume v ipPre dout ok = .error (.exec c)) ∧
    (∀ (v : Volume) (ipPre dout : String) (ok : Cmd → Bool)
        (props : IscsiProperties) (b : Bool) (c : Cmd),
      ISCSIDriver.get_iscsi_properties v ipPre dout = .ok (props, b) →
      runCmds ok (ISCSIDriver.op_new_cmds props) = none →
      runCmds ok (ISCSIDriver.set_iscsi_auth_cmds props) = none →
      runCmds ok (ISCSIDriver.login_cmds props) = some c →
      ISCSIDriver.discover_volume v ipPre dout ok =
        .error .deviceNotFound) ∧
    (∀ (v : Volume) (ipPre dout : String) (ok : Cmd → Bool)
        (props : IscsiProperties) (b : Bool),
      ISCSIDriver.get_iscsi_properties v ipPre dout = .ok (props, b) →
      runCmds ok (ISCSIDriver.op_new_cmds props) = none →
      runCmds ok (ISCSIDriver.set_iscsi_auth_cmds props) = none →
      runCmds ok (ISCSIDriver.login_cmds props) = none →
      ISCSIDriver.discover_volume v ipPre dout ok =
        .ok ("/dev/disk/by-path/ip-" ++ props.target_portal ++ "-iscsi-" ++
          props.target_iqn ++ "-lun-0")) ∧
    (∀ (v : Volume) (ipPre dout : String) (ok : Cmd → Bool) (s : String),
      ISCSIDriver.discover_volume v ipPre dout ok = .ok s →
      ∃ props : IscsiProperties,
        s = "/dev/disk/by-path/ip-" ++ props.target_portal ++ "-iscsi-" ++
          props.target_iqn ++ "-lun-0") := by
  refine ⟨?_, ?_, ?_, ?_, ?_, ?_, ?_⟩
  · intro hs
    simp [AOEDriver.discover_volume, h, hs]
  · intro hs
    simp [AOEDriver.discover_volume, h, hs]
  · intro v ipPre dout ok props b c hp hnew
    simp [ISCSIDriver.discover_volume,
      ISCSIDriver.get_iscsi_properties_for_volume, hp, hnew]
  · intro v ipPre dout ok props b c hp hnew hauth
    simp [ISCSIDriver.discover_volume,
      ISCSIDriver.get_iscsi_properties_for_volume, hp, hnew, hauth]
  · intro v ipPre dout ok props b c hp hnew hauth hlog
    simp [ISCSIDriver.discover_volume,
      ISCSIDriver.get_iscsi_properties_for_volume, hp, hnew, hauth, hlog]
  · intro v ipPre dout ok props b hp hnew hauth hlog
    simp [ISCSIDriver.discover_volume,
      ISCSIDriver.get_iscsi_properties_for_volume, hp, hnew, hauth, hlog]
  · intro v ipPre dout ok s hs
    rcases hp : ISCSIDriver.get_iscsi_properties v ipPre dout with e | pb
    · simp [ISCSIDriver.discover_volume,
        ISCSIDriver.get_iscsi_properties_for_volume, hp] at hs
    · obtain ⟨props, b⟩ := pb
      refine ⟨props, ?_⟩
      rcases hnew : runCmds ok (ISCSIDriver.op_new_cmds props) with _ | c
      · rcases hauth : runCmds ok (ISCSIDriver.set_iscsi_auth_cmds props)
          with _ | c
        · rcases hlog : runCmds ok (ISCSIDriver.login_cmds props) with _ | c
          · simp [ISCSIDriver.discover_volume,
              ISCSIDriver.get_iscsi_properties_for_volume, hp, hnew, hauth,
              hlog] at hs
            exact hs.symm
          · simp [ISCSIDriver.discover_volume,
              ISCSIDriver.get_iscsi_properties_for_volume, hp, hnew, hauth,
              hlog] at hs
        · simp [ISCSIDriver.discover_volume,
            ISCSIDriver.get_iscsi_properties_for_volume, hp, hnew, hauth]
            at hs
      · simp [ISCSIDriver.discover_volume,
          ISCSIDriver.get_iscsi_properties_for_volume, hp, hnew] at hs

/-- Witness for C6 amended at shelf 3, blade 7 with matching output. -/
theorem discover_volume_amended_ok_witness :
    volume_get_shelf_and_blade [(1, 3, 7)] 1 = some (3, 7) ∧
    strContains "e3.7 up" ("e" ++ toString 3 ++ "." ++ toString 7) = true ∧
    AOEDriver.discover_volume [(1, 3, 7)] 1 "e3.7 up" =
      .ok (some ("/dev/etherd/" ++
        ("e" ++ toString 3 ++ "." ++ toString 7))) :=
  ⟨rfl, by decide,
   (discover_volume_amended_ok [(1, 3, 7)] 1 3 7 "e3.7 up" rfl).1
     (by decide)⟩

/-- C7 counterexample: `ISCSIDriver.create_export` allocates target 1 for
the volume, then its first checked `ietadm --op new` command fails — as
it does when the target already exists — and the
`ProcessExecutionError` propagates to the caller instead of being
swallowed into a success. -/
theorem create_export_error_surfaces_cex :
    ISCSIDriver.create_export iscsi_num_targets []
        ⟨1, "vol-1", "host1", 1, "", ""⟩ (fun _ => false) =
      .error (.exec ⟨["sudo", "ietadm", "--op", "new", "--tid=1",
        "--params", "Name=iqn.2010-10.org.openstack:vol-1"], true⟩) :=
  rfl

/-- C7 amended: `create_export` allocates an Export Slot and then issues
exit-code-checked configuration commands whose failures — including a
tool error for an already-existing target — propagate to the caller.
The tolerated-error paths are elsewhere: `ISCSIDriver.ensure_export`
runs its commands with `check_exit_code=False`, and `AOEDriver.create_export`
ignores errors only on its global `auto all` / `start all` pass (the
per-volume `setup` remains checked). -/
theorem create_export_propagation_ok (n : Nat) (db : List (Nat × Nat))
    (v : Volume) (ok : Cmd → Bool) (tid : Nat) (db' : List (Nat × Nat))
    (h : volume_allocate_iscsi_target n db v.id = some (tid, db')) :
    (∀ c, runCmds ok (ISCSIDriver.create_export_cmds tid v.name) = some c →
      ISCSIDriver.create_export n db v ok = .error (.exec c)) ∧
    (runCmds ok (ISCSIDriver.create_export_cmds tid v.name) = none →
      ISCSIDriver.create_export n db v ok =
        .ok (db', tid, ISCSIDriver.create_export_cmds tid v.name)) ∧
    (∀ c ∈ ISCSIDriver.create_export_cmds tid v.name,
      c.checkExitCode = true) ∧
    (∀ (shelf blade : Nat) (vname : String),
      ((AOEDriver.create_export_cmds shelf blade vname).headD
        ⟨[], true⟩).checkExitCode = true ∧
      ∀ c ∈ (AOEDriver.create_export_cmds shelf blade vname).drop 1,
        c.checkExitCode = false) := by
  refine ⟨?_, ?_, ?_, ?_⟩
  · intro c hc
    simp [ISCSIDriver.create_export, h, hc]
  · intro hc
    simp [ISCSIDriver.create_export, h, hc]
  · intro c hc
    simp [ISCSIDriver.create_export_cmds] at hc
    rcases hc with rfl | rfl <;> rfl
  · intro shelf blade vname
    refine ⟨rfl, ?_⟩
    intro c hc
    simp [AOEDriver.create_export_cmds] at hc
    rcases hc with rfl | rfl <;> rfl

/-- Witness for C7 amended: allocation of target 1 from the empty
registry, with an always-failing tool. -/
theorem create_export_propagation_ok_witness :
    volume_allocate_iscsi_target iscsi_num_targets [] 1 =
      some (1, [(1, 1)]) ∧
    runCmds (fun _ => false) (ISCSIDriver.create_export_cmds 1 "vol-1") =
      some ⟨["sudo", "ietadm", "--op", "new", "--tid=1", "--params",
        "Name=iqn.2010-10.org.openstack:vol-1"], true⟩ ∧
    ISCSIDriver.create_export iscsi_num_targets []
        ⟨1, "vol-1", "host1", 1, "", ""⟩ (fun _ => false) =
      .error (.exec ⟨["sudo", "ietadm", "--op", "new", "--tid=1",
        "--params", "Name=iqn.2010-10.org.openstack:vol-1"], true⟩) :=
  ⟨rfl, rfl,
   (create_export_propagation_ok iscsi_num_targets []
     ⟨1, "vol-1", "host1", 1, "", ""⟩ (fun _ => false) 1 [(1, 1)] rfl).1
     _ rfl⟩

/-- C9: for a volume with a stored provider_location and a non-empty
provider_auth, `_get_iscsi_properties` unpacks
`auth.split()` into (auth_method, auth_username, auth_password) exactly
when it has three whitespace-separated tokens, returning them in order;
for any other token count the operation fails with the unstructured
tuple-unpacking `ValueError`, which is outside the spec's error
taxonomy. -/
theorem iscsi_auth_unpack_ok (v : Volume) (ipPre dout : String)
    (m u p : String)
    (hloc : v.provider_location ≠ "") (hauth : v.provider_auth ≠ "") :
    (pySplitWs v.provider_auth = [m, u, p] →
      ∃ props : IscsiProperties,
        ISCSIDriver.get_iscsi_properties v ipPre dout =
          .ok (props, false) ∧ props.auth = some (m, u, p)) ∧
    ((pySplitWs v.provider_auth).length ≠ 3 →
      ISCSIDriver.get_iscsi_properties v ipPre dout =
        .error .authUnpackError) := by
  constructor
  · intro hsp
    refine ⟨⟨false,
      String.mk (partitionAtChar ' ' v.provider_location.data).2,
      (pySplitChar ','
        (String.mk (partitionAtChar ' ' v.provider_location.data).1)).headD
        "",
      some (m, u, p)⟩, ?_, rfl⟩
    simp [ISCSIDriver.get_iscsi_properties, hloc, parseLocationAuth,
      hauth, hsp, Except.map]
  · intro hlen
    rcases hsp : pySplitWs v.provider_auth with
      _ | ⟨a, _ | ⟨b, _ | ⟨c, _ | ⟨d, tl⟩⟩⟩⟩
    · simp [ISCSIDriver.get_iscsi_properties, hloc, parseLocationAuth,
        hauth, hsp, Except.map]
    · simp [ISCSIDriver.get_iscsi_properties, hloc, parseLocationAuth,
        hauth, hsp, Except.map]
    · simp [ISCSIDriver.get_iscsi_properties, hloc, parseLocationAuth,
        hauth, hsp, Except.map]
    · exact absurd (by rw [hsp]; rfl) hlen
    · simp [ISCSIDriver.get_iscsi_properties, hloc, parseLocationAuth,
        hauth, hsp, Except.map]

/-- Witness for C9: a CHAP triple and a two-token auth string. -/
theorem iscsi_auth_unpack_ok_witness :
    (Volume.mk 1 "vol-1" "host1" 1
        "10.0.0.5:3260,1 iqn.2010-10.org.openstack:vol-1"
        "CHAP user secret").provider_location ≠ "" ∧
    (Volume.mk 1 "vol-1" "host1" 1
        "10.0.0.5:3260,1 iqn.2010-10.org.openstack:vol-1"
        "CHAP user secret").provider_auth ≠ "" ∧
    (pySplitWs "CHAP user secret" = ["CHAP", "user", "secret"] →
      ∃ props : IscsiProperties,
        ISCSIDriver.get_iscsi_properties
            (Volume.mk 1 "vol-1" "host1" 1
              "10.0.0.5:3260,1 iqn.2010-10.org.openstack:vol-1"
              "CHAP user secret") "10.0.0." "" =
          .ok (props, false) ∧
        props.auth = some ("CHAP", "user", "secret")) :=
  ⟨by decide, by decide,
   (iscsi_auth_unpack_ok
     (Volume.mk 1 "vol-1" "host1" 1
       "10.0.0.5:3260,1 iqn.2010-10.org.openstack:vol-1"
       "CHAP user secret") "10.0.0." "" "CHAP" "user" "secret"
     (by decide) (by decide)).1⟩

/-- C10: when a target number is recorded, `ISCSIDriver.ensure_export`
issues exactly its two reconfiguration commands with exit-code checking
disabled, so no tool exit status can raise a `ProcessExecutionError`
from it — whereas `create_export`'s commands are exit-code checked, and
they complete without raising exactly when the tool reports success for
each. -/
theorem ensure_export_unchecked_ok (db : List (Nat × Nat)) (vid tid : Nat)
    (vname : String) (ok : Cmd → Bool)
    (h : volume_get_iscsi_target_num db vid = some tid) :
    (ISCSIDriver.ensure_export db vid vname).2 =
      ISCSIDriver.ensure_export_cmds tid vname ∧
    (∀ c ∈ ISCSIDriver.ensure_export_cmds tid vname,
      c.checkExitCode = false) ∧
    runCmds ok (ISCSIDriver.ensure_export db vid vname).2 = none ∧
    (runCmds ok (ISCSIDriver.create_export_cmds tid vname) = none ↔
      ∀ c ∈ ISCSIDriver.create_export_cmds tid vname, ok c = true) := by
  have hcmds : (ISCSIDriver.ensure_export db vid vname).2 =
      ISCSIDriver.ensure_export_cmds tid vname := by
    simp [ISCSIDriver.ensure_export, h]
  refine ⟨hcmds, ?_, ?_, ?_⟩
  · intro c hc
    simp [ISCSIDriver.ensure_export_cmds] at hc
    rcases hc with rfl | rfl <;> rfl
  · rw [hcmds, runCmds_none_iff]
    intro c hc hchk
    simp [ISCSIDriver.ensure_export_cmds] at hc
    rcases hc with rfl | rfl <;> exact Bool.noConfusion hchk
  · rw [runCmds_none_iff]
    constructor
    · intro hall c hc
      refine hall c hc ?_
      simp [ISCSIDriver.create_export_cmds] at hc
      rcases hc with rfl | rfl <;> rfl
    · intro hall c hc _
      exact hall c hc

/-- Witness for C10 at target 5 with an always-failing tool. -/
theorem ensure_export_unchecked_ok_witness :
    volume_get_iscsi_target_num [(1, 5)] 1 = some 5 ∧
    runCmds (fun _ => false)
      (ISCSIDriver.ensure_export [(1, 5)] 1 "vol-1").2 = none :=
  ⟨rfl,
   (ensure_export_unchecked_ok [(1, 5)] 1 5 "vol-1"
     (fun _ => false) rfl).2.2.1⟩

end Nova
